import Mathlib

/-!
Verification development for the leverage-trader repository.

The definitions below are a shallow embedding of the Python source:
the Position Sizer arithmetic of `src/trade_executor.py`
(`_calculate_trade_params`, `check_sl_tp`), the data layer of
`src/data_handler.py` (`fetch_ohlcv`, `get_current_price`), and one
iteration ("tick") of the trading control loop `run_trading_logic` of
`src/main.py` (lines 636-877).

Python `Decimal` values are modelled as exact rationals; the only
rounding performed by the source is `Decimal.quantize` with
`ROUND_DOWN` (round toward zero) or `ROUND_UP` (round away from zero)
at exponent `1e-p`, modelled by `quantDown` / `quantUp` below.
-/

namespace LeverageTrader

/-- Integer obtained from a rational by rounding toward zero
(Python Decimal `ROUND_DOWN`). -/
def truncTowardZero (x : ℚ) : ℤ :=
  if 0 ≤ x then ⌊x⌋ else ⌈x⌉

/-- Integer obtained from a rational by rounding away from zero
(Python Decimal `ROUND_UP`). -/
def awayFromZero (x : ℚ) : ℤ :=
  if 0 ≤ x then ⌈x⌉ else ⌊x⌋

/-- Python `x.quantize(Decimal(str("1e-" + str p)), rounding=ROUND_DOWN)`:
round `x` toward zero to a multiple of `10 ^ (-p)`. -/
def quantDown (x : ℚ) (p : ℕ) : ℚ :=
  (truncTowardZero (x * 10 ^ p) : ℚ) / 10 ^ p

/-- Python `x.quantize(Decimal(str("1e-" + str p)), rounding=ROUND_UP)`:
round `x` away from zero to a multiple of `10 ^ (-p)`. -/
def quantUp (x : ℚ) (p : ℕ) : ℚ :=
  (awayFromZero (x * 10 ^ p) : ℚ) / 10 ^ p

/-- Order side as used by `TradeExecutor` (strings `buy` / `sell` in the
source; `execute_trade` rejects anything else up front). -/
inductive Side where
  | buy
  | sell
deriving DecidableEq, Repr

/-- Result record of `TradeExecutor._calculate_trade_params`
(`src/trade_executor.py` lines 75-80): the `params` dictionary. -/
structure CalcParams where
  finalAmount : Option ℚ := none
  slPrice : Option ℚ := none
  tpPrice : Option ℚ := none
  error : Option String := none
deriving DecidableEq, Repr

/-- Amount-quantization step of `_calculate_trade_params`
(`src/trade_executor.py` lines 86-95): truncate the requested
base-currency amount toward zero to the amount step `10 ^ (-amountPrecision)`
and fail when the result is below the exchange minimum.  The source
interpolates the offending values into the error message; the message
text is fixed here. -/
def quantizeAmount (amountBase : ℚ) (amountPrecision : ℕ) (minAmount : ℚ) :
    Except String ℚ :=
  let finalAmount := quantDown amountBase amountPrecision
  if finalAmount < minAmount then
    .error "Trade amount is below minimum."
  else
    .ok finalAmount

/-- Embedding of `TradeExecutor._calculate_trade_params`
(`src/trade_executor.py` lines 66-145).  `market_details` is assumed
loaded (the constructor raises otherwise, lines 32-34), so the
`not self.market_details` guard is omitted.  Decimal conversions of the
float percentages are exact in the rational model. -/
def calcTradeParams (amountPrecision pricePrecision : ℕ) (minAmount : ℚ)
    (amountBase : ℚ) (side : Side) (currentPrice : Option ℚ)
    (stopLossPct takeProfitPct : ℚ) : CalcParams :=
  match quantizeAmount amountBase amountPrecision minAmount with
  | .error e => { error := some e }
  | .ok finalAmount =>
    match currentPrice with
    | none =>
      if 0 < stopLossPct ∨ 0 < takeProfitPct then
        { finalAmount := some finalAmount,
          error := some "Cannot calculate SL/TP without current_price." }
      else
        { finalAmount := some finalAmount }
    | some cp =>
      let slPct := stopLossPct / 100
      let tpPct := takeProfitPct / 100
      let slNominal : Option ℚ :=
        match side with
        | .buy => if 0 < slPct then some (cp * (1 - slPct)) else none
        | .sell => if 0 < slPct then some (cp * (1 + slPct)) else none
      let tpNominal : Option ℚ :=
        match side with
        | .buy => if 0 < tpPct then some (cp * (1 + tpPct)) else none
        | .sell => if 0 < tpPct then some (cp * (1 - tpPct)) else none
      let slPrice := slNominal.map (fun x =>
        match side with
        | .buy => quantDown x pricePrecision
        | .sell => quantUp x pricePrecision)
      let tpPrice := tpNominal.map (fun x =>
        match side with
        | .buy => quantUp x pricePrecision
        | .sell => quantDown x pricePrecision)
      { finalAmount := some finalAmount, slPrice := slPrice, tpPrice := tpPrice }

/-- The position-info dictionary returned by `execute_trade` /
`execute_manual_trade`, restricted to the fields `check_sl_tp` reads.
An absent or empty dictionary is modelled by `Option PositionInfo`
being `none` at the call site. -/
structure PositionInfo where
  side : Side
  slPrice : Option ℚ := none
  tpPrice : Option ℚ := none
deriving DecidableEq, Repr

/-- Trigger result of `check_sl_tp`: the strings `SL` / `TP`. -/
inductive Trigger where
  | SL
  | TP
deriving DecidableEq, Repr

/-- Python truthiness for an optional Decimal: `None` and `0` are falsy.
Collapses a stored price to `none` exactly when the source would skip
that leg in an `if price and ...` test. -/
def decTruthy (o : Option ℚ) : Option ℚ :=
  match o with
  | none => none
  | some x => if x = 0 then none else some x

/-- Stop-loss comparison of `check_sl_tp`: for `buy`, triggered when
`currentPrice ≤ sl`; for `sell`, when `sl ≤ currentPrice`.  The
argument is the already-truthiness-filtered stored price. -/
def slHit (side : Side) (sl : Option ℚ) (currentPrice : ℚ) : Bool :=
  match sl with
  | none => false
  | some x =>
    match side with
    | .buy => decide (currentPrice ≤ x)
    | .sell => decide (x ≤ currentPrice)

/-- Take-profit comparison of `check_sl_tp`: for `buy`, triggered when
`currentPrice ≥ tp`; for `sell`, when `currentPrice ≤ tp`. -/
def tpHit (side : Side) (tp : Option ℚ) (currentPrice : ℚ) : Bool :=
  match tp with
  | none => false
  | some x =>
    match side with
    | .buy => decide (x ≤ currentPrice)
    | .sell => decide (currentPrice ≤ x)

/-- Embedding of `TradeExecutor.check_sl_tp` (`src/trade_executor.py`
lines 269-314).  `not position_info or not current_price` returns
`none`; a stored price of `0` is falsy in the `if sl_price_decimal and ...`
tests and therefore behaves as unset; the stop leg is checked before
the take leg on both sides. -/
def check_sl_tp (positionInfo : Option PositionInfo) (currentPrice : ℚ) :
    Option Trigger :=
  match positionInfo with
  | none => none
  | some pos =>
    if currentPrice = 0 then none
    else
      let sl := decTruthy pos.slPrice
      let tp := decTruthy pos.tpPrice
      if sl = none ∧ tp = none then none
      else if slHit pos.side sl currentPrice then some .SL
      else if tpHit pos.side tp currentPrice then some .TP
      else none

/-- One OHLCV candle, reduced to the field the control loop reads
(the `close` column); `none` models a value that became NaN under
`pd.to_numeric(..., errors=coerce)`. -/
structure Candle where
  close : Option ℚ
deriving DecidableEq, Repr

/-- Results of the up-to-three raw fetch attempts made inside
`DataHandler.fetch_ohlcv`, plus the ticker price used by
`DataHandler.get_current_price` as fallback.  `none` models an attempt
that returned nothing (falsy) and a ticker call that failed. -/
structure FetchEnv where
  a0 : Option (List Candle) := none
  a1 : Option (List Candle) := none
  a2 : Option (List Candle) := none
  ticker : Option ℚ := none
deriving DecidableEq, Repr

/-- Python truthiness of a raw OHLCV value: `None` and the empty list
are falsy. -/
def listTruthy (o : Option (List Candle)) : Bool :=
  match o with
  | some (_ :: _) => true
  | _ => false

/-- Embedding of `DataHandler.fetch_ohlcv` (`src/data_handler.py`
lines 27-74): up to 3 attempts, the first truthy result wins; if the
last attempt is also falsy the method returns `None`.  The method
catches every exception internally, so it never raises. -/
def fetchOhlcv (env : FetchEnv) : Option (List Candle) :=
  let r :=
    if listTruthy env.a0 then env.a0
    else if listTruthy env.a1 then env.a1
    else env.a2
  if listTruthy r then r else none

/-- Embedding of `DataHandler.get_current_price` (`src/data_handler.py`
lines 76-116): prefer the latest close of the DataFrame; fall back to
the ticker when the frame is absent, empty, or its latest close is NaN. -/
def getCurrentPrice (ohlcv : Option (List Candle)) (ticker : Option ℚ) :
    Option ℚ :=
  match ohlcv with
  | some df =>
    match df.getLast? with
    | some candle =>
      match candle.close with
      | some c => some c
      | none => ticker
    | none => ticker
  | none => ticker

/-- The position-info dictionary tracked by the loop in
`current_position`, as returned by `execute_trade` (lines 198-207) and
`execute_manual_trade` (lines 253-262) of `src/trade_executor.py`. -/
structure Position where
  side : Side
  size : ℚ
  entryPrice : ℚ
  slPrice : Option ℚ := none
  tpPrice : Option ℚ := none
deriving DecidableEq, Repr

/-- The `Metrics` record of `src/main.py` (lines 200-212), restricted
to the fields the loop reads or writes.  The source creates exactly one
such object before the loop (line 631) and mutates it in place. -/
structure Metrics where
  symbol : String
  currentPrice : Option ℚ := none
  rsi : Option ℚ := none
  prediction : Option String := none
  positionSize : Option ℚ := none
  entryPrice : Option ℚ := none
  pnlPercent : Option ℚ := none
  chartData : Option (List Candle) := none
deriving DecidableEq, Repr

/-- Side requested by a `ManualTradeMessage` (strings `long` / `short`
in `action_manual_trade`). -/
inductive TradeDir where
  | long
  | short
deriving DecidableEq, Repr

/-- Display form of a trade direction, Python `side.upper()`. -/
def TradeDir.upper : TradeDir → String
  | .long => "LONG"
  | .short => "SHORT"

/-- Commands drained from the inbound queue (`src/main.py` lines
641-725): a `ManualTradeMessage`, or a dict command `refresh_data` /
`update_setting`.  For `update_setting`, `known` models
`hasattr(config, name)` and `applyError` models an exception raised
while applying the new value (for example a handler re-construction
failing). -/
inductive Command where
  | manualTrade (side : TradeDir)
  | refreshData
  | updateSetting (name : String) (value : String) (known : Bool)
      (applyError : Option String)
deriving DecidableEq, Repr

/-- Outcome of the indicator/prediction computation of one tick
(`src/main.py` lines 782-797): `calcOk` when `calculate_indicators`
returned data (carrying the displayed RSI and the generated signal
string), `calcFailed` when it returned `None`, and `raised` when the
prediction body raised (modelled as raising at the start of the phase
body; the outer handler at lines 864-874 throttles the report). -/
inductive PredictionOutcome where
  | calcFailed
  | calcOk (rsi : Option ℚ) (signal : String)
  | raised (e : String)
deriving DecidableEq, Repr

/-- Messages posted to the UI thread via `post_message_callback`,
restricted to the constructors `run_trading_logic` posts. -/
inductive Msg where
  | updateMetrics (m : Metrics)
  | notification (text : String) (level : String)
  | connectionStatus (status : String) (err : String)
deriving DecidableEq, Repr

/-- Calls made by the loop into `TradeExecutor`.  The tick records each
invocation so that temporal claims about which executor operations run
can be stated. -/
inductive ExtCall where
  | executeManualTrade
  | executeTrade
  | checkSlTpCall
  | closePositionCall
deriving DecidableEq, Repr

/-- Loop-local mutable state of `run_trading_logic` (`src/main.py`
lines 608-632): the interval clocks, the tracked position, the cached
OHLCV frame, the shared `Metrics` record and the prediction-error
throttle. -/
structure LoopState where
  lastDataFetch : ℤ := 0
  lastPredictionRun : ℤ := 0
  lastConnectionCheck : ℤ := 0
  currentPosition : Option Position := none
  ohlcv : Option (List Candle) := none
  metrics : Metrics
  lastPredictionErrorTime : ℤ := 0
  lastPredictionErrorMsg : String := ""
deriving DecidableEq, Repr

/-- Configurable intervals read by the loop (`config.DATA_FETCH_INTERVAL_SECONDS`
and `config.PREDICTION_INTERVAL_SECONDS`).  Wall-clock instants and
intervals are modelled as integer seconds; no claim depends on
fractional times. -/
structure Config where
  dataFetchInterval : ℤ
  predictionInterval : ℤ
deriving DecidableEq, Repr

/-- The constant `CONNECTION_CHECK_INTERVAL` of `src/main.py` line 39. -/
def connectionCheckInterval : ℤ := 10

/-- The constant `PREDICTION_ERROR_THROTTLE` of `src/main.py` line 42. -/
def predictionErrorThrottle : ℤ := 10

/-- External world of one tick: the wall clock, the drained command (at
most one per tick via `get_nowait`), and the results the collaborators
would return if invoked this tick.  `Except.error e` models the call
raising `e`; for the periodic fetch, `fetchRaises` models the
`except` branch of `src/main.py` lines 771-774 (the call raising before
returning), while `fetchEnv` feeds the normal `DataHandler.fetch_ohlcv`
path. -/
structure TickInput where
  now : ℤ
  command : Option Command := none
  manualTradeResult : Except String (Option Position) := .ok none
  refreshEnv : FetchEnv := {}
  connectionTest : Except String (Option ℚ) := .ok none
  fetchRaises : Option String := none
  fetchEnv : FetchEnv := {}
  prediction : PredictionOutcome := .calcFailed
  autoTradeResult : Except String (Option Position) := .ok none

/-- Output of a phase or of a whole tick: the successor state, the
messages posted (in order), the `TradeExecutor` calls made, and any
extra `time.sleep` performed beyond the fixed 0.1s end-of-loop slice. -/
structure PhaseOut where
  state : LoopState
  msgs : List Msg := []
  calls : List ExtCall := []
  extraSleep : ℚ := 0

/-- Manual-trade handling of the command phase (`src/main.py` lines
643-667): on success the position and metrics are updated; failures and
exceptions only post a notification. -/
def manualApply (s : LoopState) (dir : TradeDir)
    (r : Except String (Option Position)) : PhaseOut :=
  match r with
  | .ok (some pos) =>
    { state :=
        { s with
          currentPosition := some pos,
          metrics :=
            { s.metrics with
              positionSize := some pos.size,
              entryPrice := some pos.entryPrice,
              prediction := some ("Manual " ++ dir.upper),
              pnlPercent := none } },
      msgs := [.notification ("Manual " ++ dir.upper ++ " trade executed") "success"],
      calls := [.executeManualTrade] }
  | .ok none =>
    { state := s,
      msgs := [.notification ("Manual " ++ dir.upper ++ " trade failed") "error"],
      calls := [.executeManualTrade] }
  | .error e =>
    { state := s,
      msgs := [.notification ("Error executing trade: " ++ e) "error"],
      calls := [.executeManualTrade] }

/-- Manual-refresh handling of the command phase (`src/main.py` lines
670-691): a truthy fetch replaces the cached frame; a truthy derived
price also updates the metrics. -/
def refreshApply (s : LoopState) (env : FetchEnv) : PhaseOut :=
  match fetchOhlcv env with
  | some (c :: rest) =>
    match decTruthy (getCurrentPrice (some (c :: rest)) env.ticker) with
    | some cp =>
      { state :=
          { s with
            ohlcv := some (c :: rest),
            metrics :=
              { s.metrics with
                currentPrice := some cp, chartData := some (c :: rest) } },
        msgs := [.notification "Data refreshed successfully" "success"] }
    | none =>
      { state := { s with ohlcv := some (c :: rest) },
        msgs := [.notification "Could not determine current price" "warning"] }
  | _ =>
    { state := s, msgs := [.notification "No data fetched" "warning"] }

/-- Setting-update handling of the command phase (`src/main.py` lines
692-723). -/
def settingApply (s : LoopState) (name value : String) (known : Bool)
    (applyError : Option String) : PhaseOut :=
  if known then
    match applyError with
    | some e =>
      { state := s, msgs := [.notification ("Error updating setting: " ++ e) "error"] }
    | none =>
      { state :=
          if name = "DEFAULT_SYMBOL" then
            { s with metrics := { s.metrics with symbol := value } }
          else s,
        msgs := [.notification ("Setting " ++ name ++ " updated") "success"] }
  else
    { state := s, msgs := [.notification ("Unknown setting: " ++ name) "warning"] }

/-- Command-drain phase (`src/main.py` lines 640-729). -/
def processCommand (s : LoopState) (i : TickInput) : PhaseOut :=
  match i.command with
  | none => { state := s }
  | some (.manualTrade dir) => manualApply s dir i.manualTradeResult
  | some .refreshData => refreshApply s i.refreshEnv
  | some (.updateSetting name value known applyError) =>
    settingApply s name value known applyError

/-- Python truthiness of the connection-test price (a float: `0.0` is
falsy). -/
def priceTruthy (o : Option ℚ) : Bool :=
  match o with
  | none => false
  | some x => decide (x ≠ 0)

/-- The connection-status message posted by the connectivity check:
connected on a truthy price, an error otherwise (`src/main.py` lines
736-743). -/
def connectionMsg (t : Except String (Option ℚ)) : Msg :=
  match t with
  | .error e => .connectionStatus "error" e
  | .ok v =>
    if priceTruthy v then .connectionStatus "connected" ""
    else .connectionStatus "error" "API returned null result"

/-- Connectivity-check phase (`src/main.py` lines 731-745). -/
def connectionPhase (s : LoopState) (i : TickInput) : PhaseOut :=
  if s.lastConnectionCheck + connectionCheckInterval ≤ i.now then
    { state := { s with lastConnectionCheck := i.now },
      msgs := [connectionMsg i.connectionTest] }
  else
    { state := s }

/-- Periodic data-fetch phase (`src/main.py` lines 747-774).  On a
falsy fetch result only a warning is logged (no message posted) and
`last_data_fetch` still advances to `now` (line 769 runs for both the
success and the empty branch).  Only when the call raises does the loop
post a `ConnectionStatusMessage`, leave `last_data_fetch` unchanged and
sleep half the configured interval.  `fetchSuccess` is the
truthy-result branch: the frame is cached, a truthy derived price also
updates the metrics, and the fetch clock advances. -/
def fetchSuccess (s : LoopState) (df : List Candle) (ticker : Option ℚ)
    (now : ℤ) : PhaseOut :=
  match decTruthy (getCurrentPrice (some df) ticker) with
  | some cp =>
    { state :=
        { s with
          ohlcv := some df,
          metrics := { s.metrics with currentPrice := some cp, chartData := some df },
          lastDataFetch := now } }
  | none => { state := { s with ohlcv := some df, lastDataFetch := now } }

/-- Periodic data-fetch phase (`src/main.py` lines 747-774), dispatch
on the raise / truthy-result / falsy-result cases. -/
def fetchPhase (cfg : Config) (s : LoopState) (i : TickInput) : PhaseOut :=
  if s.lastDataFetch + cfg.dataFetchInterval ≤ i.now then
    match i.fetchRaises with
    | some e =>
      { state := s,
        msgs := [.connectionStatus "error" ("Data fetch error: " ++ e)],
        extraSleep := (cfg.dataFetchInterval : ℚ) / 2 }
    | none =>
      match fetchOhlcv i.fetchEnv with
      | some (c :: rest) => fetchSuccess s (c :: rest) i.fetchEnv.ticker i.now
      | _ => { state := { s with lastDataFetch := i.now } }
  else
    { state := s }

/-- Gate of the prediction phase (`src/main.py` line 778): interval
elapsed, a cached non-empty OHLCV frame, and `metrics.current_price`
not `None` (an `is not None` test, not a truthiness test). -/
def predGate (cfg : Config) (s : LoopState) (i : TickInput) : Bool :=
  decide (s.lastPredictionRun + cfg.predictionInterval ≤ i.now) &&
    listTruthy s.ohlcv && s.metrics.currentPrice.isSome

/-- Throttled prediction-error report (`src/main.py` lines 864-874):
an exception is reported only when its message differs from the last
one or the throttle window has elapsed; the prediction clock does not
advance. -/
def throttleReport (s : LoopState) (e : String) (now : ℤ) : PhaseOut :=
  if e ≠ s.lastPredictionErrorMsg ∨
      s.lastPredictionErrorTime + predictionErrorThrottle ≤ now then
    { state :=
        { s with lastPredictionErrorMsg := e, lastPredictionErrorTime := now },
      msgs := [.notification ("Prediction error: " ++ e) "error"] }
  else
    { state := s }

/-- Automated-trade block (`src/main.py` lines 800-859): invoked when
the signal is LONG or SHORT and the loop is flat. -/
def autoTradeApply (s1 : LoopState) (prediction : String)
    (r : Except String (Option Position)) : PhaseOut :=
  match r with
  | .ok (some pos) =>
    { state :=
        { s1 with
          currentPosition := some pos,
          metrics :=
            { s1.metrics with
              positionSize := some pos.size,
              entryPrice := some pos.entryPrice,
              pnlPercent := none } },
      msgs := [.notification ("Automated " ++ prediction ++ " trade executed") "success"],
      calls := [.executeTrade] }
  | .ok none =>
    { state := s1,
      msgs := [.notification ("Automated " ++ prediction ++ " trade failed") "error"],
      calls := [.executeTrade] }
  | .error e =>
    { state := s1,
      msgs := [.notification ("Error executing trade: " ++ e) "error"],
      calls := [.executeTrade] }

/-- End of the prediction body (`src/main.py` lines 861-863): post the
metrics snapshot after the optional trade and advance the prediction
clock. -/
def finishPred (now : ℤ) (r2 : PhaseOut) : PhaseOut :=
  { state := { r2.state with lastPredictionRun := now },
    msgs := r2.msgs ++ [.updateMetrics r2.state.metrics],
    calls := r2.calls }

/-- Non-raising prediction body on the state `s1` already carrying the
indicator results, with signal string `prediction`. -/
def predBody (i : TickInput) (s1 : LoopState) (prediction : String) : PhaseOut :=
  finishPred i.now
    (if (prediction = "LONG" ∨ prediction = "SHORT") ∧ s1.currentPosition = none then
      autoTradeApply s1 prediction i.autoTradeResult
    else
      { state := s1 })

/-- Prediction / automated-trade phase (`src/main.py` lines 777-874),
dispatch on the three prediction outcomes.  The position-history block
at lines 820-839 is omitted: it is guarded by
`trade_result.get(status) == closed and trade_result.get(exit_price)`,
and `execute_trade` never places either key in its result (lines
198-207 of `src/trade_executor.py`), so the branch is unreachable. -/
def predictionPhase (cfg : Config) (s : LoopState) (i : TickInput) : PhaseOut :=
  if predGate cfg s i then
    match i.prediction with
    | .raised e => throttleReport s e i.now
    | .calcOk rsi sig =>
      predBody i { s with metrics := { s.metrics with rsi := rsi, prediction := some sig } } sig
    | .calcFailed =>
      predBody i
        { s with metrics := { s.metrics with prediction := some "Calc Error", rsi := none } }
        "HOLD"
  else
    { state := s }

/-- One iteration of the `while not stop_event.is_set()` loop of
`run_trading_logic` (`src/main.py` lines 636-877): drain at most one
command, run the connectivity check, the periodic fetch and the
prediction phase, in source order. -/
def tick (cfg : Config) (s : LoopState) (i : TickInput) : PhaseOut :=
  let r1 := processCommand s i
  let r2 := connectionPhase r1.state i
  let r3 := fetchPhase cfg r2.state i
  let r4 := predictionPhase cfg r3.state i
  { state := r4.state,
    msgs := r1.msgs ++ r2.msgs ++ r3.msgs ++ r4.msgs,
    calls := r1.calls ++ r2.calls ++ r3.calls ++ r4.calls,
    extraSleep := r1.extraSleep + r2.extraSleep + r3.extraSleep + r4.extraSleep }

/-- Number of `UpdateMetricsMessage` posts in a message list. -/
def updCount (ms : List Msg) : ℕ :=
  ms.countP (fun m =>
    match m with
    | .updateMetrics _ => true
    | _ => false)

/-- The live positions tracked by the loop: the single `current_position`
variable, as a list. -/
def LoopState.positions (s : LoopState) : List Position :=
  s.currentPosition.toList

/-- A trade attempt of tick input `i` succeeded: either a drained
manual-trade command whose execution returned a position, or an
automated trade whose execution returned a position. -/
def tradeSucceeded (i : TickInput) : Prop :=
  ((∃ d, i.command = some (.manualTrade d)) ∧
    ∃ p, i.manualTradeResult = .ok (some p)) ∨
  (∃ p, i.autoTradeResult = .ok (some p))

/-- Loop state after the command, connectivity and fetch phases of a
tick, on which the prediction-phase gate of line 778 is evaluated. -/
def midState (cfg : Config) (s : LoopState) (i : TickInput) : LoopState :=
  (fetchPhase cfg (connectionPhase (processCommand s i).state i).state i).state

/-- The prediction body of tick input `i` does not raise. -/
def notRaised (i : TickInput) : Bool :=
  match i.prediction with
  | .raised _ => false
  | _ => true

/-- The tick publishes a metrics snapshot: the prediction-phase gate
holds on the state reached after the earlier phases and the phase body
does not raise. -/
def predictionRan (cfg : Config) (s : LoopState) (i : TickInput) : Bool :=
  predGate cfg (midState cfg s i) i && notRaised i

/-- Sample configuration: 60-second fetch and prediction intervals. -/
def cfg0 : Config := { dataFetchInterval := 60, predictionInterval := 60 }

/-- Open Long position of Scenario D: stop at 0.45, take at 0.55. -/
def posD : Position :=
  { side := .buy, size := 1, entryPrice := 1/2,
    slPrice := some (45/100), tpPrice := some (55/100) }

/-- Loop state of Scenario D: position open, current price 0.44 (below
the stop). -/
def sOpenD : LoopState :=
  { currentPosition := some posD,
    ohlcv := some [{ close := some (44/100) }],
    metrics := { symbol := "XRP/USDT:USDT", currentPrice := some (44/100) } }

/-- A quiet tick input: no command, no interval due at time 0. -/
def idleInput : TickInput := { now := 0 }

/-- A busy tick input on an open position: a manual-trade command that
succeeds, a fetchable candle and a computed signal. -/
def busyInput : TickInput :=
  { now := 1000,
    command := some (.manualTrade .long),
    manualTradeResult := .ok (some posD),
    fetchEnv := { a0 := some [{ close := some (1/2) }] },
    prediction := .calcOk none "NONE" }

/-- Flat loop state with an empty metrics record. -/
def sFlat : LoopState := { metrics := { symbol := "XRP/USDT:USDT" } }

/-- Tick input carrying a successful manual LONG trade. -/
def manualInput : TickInput :=
  { now := 0,
    command := some (.manualTrade .long),
    manualTradeResult := .ok (some posD) }

/-- Loop state for the C4 counterexample: data fetch due, prediction
not due. -/
def sC4 : LoopState :=
  { lastPredictionRun := 90,
    metrics := { symbol := "XRP/USDT:USDT" } }

/-- Tick input for the C4 counterexample: a successful fetch at time
100. -/
def iC4 : TickInput :=
  { now := 100,
    fetchEnv := { a0 := some [{ close := none }] } }

/-- Loop state for the C5 counterexample: a cached snapshot and price,
fetch due at time 100, connectivity check not due. -/
def sC5 : LoopState :=
  { lastConnectionCheck := 100,
    ohlcv := some [{ close := some 50 }],
    metrics := { symbol := "XRP/USDT:USDT", currentPrice := some 50 } }

/-- Tick input for the C5 counterexample: all three fetch attempts
fail (every attempt returns nothing). -/
def iC5 : TickInput := { now := 100 }

/-- Tick input for the C5 witness: the fetch call itself raises. -/
def iC5raise : TickInput := { now := 100, fetchRaises := some "boom" }

/-- Loop state for the C9 counterexample: prediction due at time 60,
other intervals not due. -/
def s9 : LoopState :=
  { lastDataFetch := 60,
    lastConnectionCheck := 60,
    ohlcv := some [{ close := some 50 }],
    metrics := { symbol := "XRP/USDT:USDT", currentPrice := some 50 } }

/-- First tick input for the C9 counterexample: indicators computed,
signal NONE. -/
def i9a : TickInput :=
  { now := 60, prediction := .calcOk (some 50) "NONE" }

/-- Second tick input for the C9 counterexample: a fetch delivering a
new price 0.6. -/
def i9b : TickInput :=
  { now := 120,
    fetchEnv := { a0 := some [{ close := none }] },
    prediction := .calcOk none "NONE" }

/-- The metrics value published by the first C9 tick. -/
def mPub : Metrics :=
  { symbol := "XRP/USDT:USDT", currentPrice := some 50,
    rsi := some 50, prediction := some "NONE" }

/-! ## Helper lemmas about the rounding model -/

/-- Rounding an integer toward zero is the identity. -/
theorem truncTowardZero_intCast (k : ℤ) : truncTowardZero (k : ℚ) = k := by
  unfold truncTowardZero
  split <;> simp

/-- Toward-zero rounding never increases the absolute value, and loses
strictly less than one unit. -/
theorem truncTowardZero_abs (y : ℚ) :
    |(truncTowardZero y : ℚ)| ≤ |y| ∧ |y| - |(truncTowardZero y : ℚ)| < 1 := by
  unfold truncTowardZero
  by_cases hy : 0 ≤ y
  · rw [if_pos hy]
    have h1 : (0 : ℚ) ≤ (⌊y⌋ : ℚ) := by exact_mod_cast Int.floor_nonneg.mpr hy
    rw [abs_of_nonneg hy, abs_of_nonneg h1]
    refine ⟨Int.floor_le y, ?_⟩
    have := Int.sub_one_lt_floor y
    linarith
  · rw [if_neg hy]
    push_neg at hy
    have hc : ((⌈y⌉ : ℤ) : ℚ) ≤ 0 := by
      exact_mod_cast Int.ceil_le.mpr (by exact_mod_cast hy.le)
    rw [abs_of_neg hy, abs_of_nonpos hc]
    constructor
    · have := Int.le_ceil y
      linarith
    · have := Int.ceil_lt_add_one y
      linarith

/-- Rounding down to the step never increases a nonnegative value. -/
theorem quantDown_le (x : ℚ) (p : ℕ) (hx : 0 ≤ x) : quantDown x p ≤ x := by
  unfold quantDown truncTowardZero
  have h10 : (0 : ℚ) < 10 ^ p := by positivity
  have hx' : 0 ≤ x * 10 ^ p := by positivity
  rw [if_pos hx', div_le_iff₀ h10]
  exact Int.floor_le _

/-- Rounding up to the step never decreases a nonnegative value. -/
theorem le_quantUp (x : ℚ) (p : ℕ) (hx : 0 ≤ x) : x ≤ quantUp x p := by
  unfold quantUp awayFromZero
  have h10 : (0 : ℚ) < 10 ^ p := by positivity
  have hx' : 0 ≤ x * 10 ^ p := by positivity
  rw [if_pos hx', le_div_iff₀ h10]
  exact Int.le_ceil _

/-- The quantized amount is an integer multiple of the amount step. -/
theorem quantDown_isMultiple (x : ℚ) (p : ℕ) :
    ∃ k : ℤ, quantDown x p = (k : ℚ) / 10 ^ p :=
  ⟨truncTowardZero (x * 10 ^ p), rfl⟩

/-- Absolute-value characterization of toward-zero quantization: the
result never exceeds the input in magnitude and differs from it by less
than one step. -/
theorem quantDown_abs (x : ℚ) (p : ℕ) :
    |quantDown x p| ≤ |x| ∧ |x| - |quantDown x p| < 1 / 10 ^ p := by
  have h10 : (0 : ℚ) < 10 ^ p := by positivity
  have h := truncTowardZero_abs (x * 10 ^ p)
  have habs : |x * 10 ^ p| = |x| * 10 ^ p := by
    rw [abs_mul, abs_of_pos h10]
  rw [habs] at h
  unfold quantDown
  rw [abs_div, abs_of_pos h10]
  constructor
  · rw [div_le_iff₀ h10]
    calc |(truncTowardZero (x * 10 ^ p) : ℚ)| ≤ |x| * 10 ^ p := h.1
    _ = |x| * 10 ^ p := rfl
  · have h2 := h.2
    rw [lt_div_iff₀ h10, sub_mul, div_mul_cancel₀ _ (ne_of_gt h10)]
    linarith

/-- Toward-zero quantization is idempotent. -/
theorem quantDown_idem (x : ℚ) (p : ℕ) :
    quantDown (quantDown x p) p = quantDown x p := by
  unfold quantDown
  have h10 : (10 : ℚ) ^ p ≠ 0 := by positivity
  rw [div_mul_cancel₀ _ h10, truncTowardZero_intCast]

/-- Reduction of `quantizeAmount` in the at-or-above-minimum case. -/
theorem quantizeAmount_ok (x minA : ℚ) (p : ℕ) (h : ¬ quantDown x p < minA) :
    quantizeAmount x p minA = .ok (quantDown x p) := by
  unfold quantizeAmount
  simp [h]

/-- Reduction of `quantizeAmount` in the below-minimum case. -/
theorem quantizeAmount_err (x minA : ℚ) (p : ℕ) (h : quantDown x p < minA) :
    quantizeAmount x p minA = .error "Trade amount is below minimum." := by
  unfold quantizeAmount
  simp [h]

/-- Reduction of `calcTradeParams` on the `buy` side with both
percentages positive and the amount at or above the minimum. -/
theorem calcTradeParams_buy (q p : ℕ) (minA amountBase entry slPct tpPct : ℚ)
    (hamt : ¬ quantDown amountBase q < minA) (hsl : 0 < slPct) (htp : 0 < tpPct) :
    calcTradeParams q p minA amountBase .buy (some entry) slPct tpPct =
      { finalAmount := some (quantDown amountBase q),
        slPrice := some (quantDown (entry * (1 - slPct / 100)) p),
        tpPrice := some (quantUp (entry * (1 + tpPct / 100)) p) } := by
  have h1 : 0 < slPct / 100 := by positivity
  have h2 : 0 < tpPct / 100 := by positivity
  unfold calcTradeParams
  rw [quantizeAmount_ok _ _ _ hamt]
  simp [h1, h2]

/-- Reduction of `calcTradeParams` on the `sell` side with both
percentages positive and the amount at or above the minimum. -/
theorem calcTradeParams_sell (q p : ℕ) (minA amountBase entry slPct tpPct : ℚ)
    (hamt : ¬ quantDown amountBase q < minA) (hsl : 0 < slPct) (htp : 0 < tpPct) :
    calcTradeParams q p minA amountBase .sell (some entry) slPct tpPct =
      { finalAmount := some (quantDown amountBase q),
        slPrice := some (quantUp (entry * (1 + slPct / 100)) p),
        tpPrice := some (quantDown (entry * (1 - tpPct / 100)) p) } := by
  have h1 : 0 < slPct / 100 := by positivity
  have h2 : 0 < tpPct / 100 := by positivity
  unfold calcTradeParams
  rw [quantizeAmount_ok _ _ _ hamt]
  simp [h1, h2]

/-! ## Claim theorems for the Position Sizer -/

/-- C6: the amount-quantization step of `_calculate_trade_params`
truncates the requested base-currency amount toward zero to the
exchange amount step `10 ^ (-p)` (the result is a multiple of the step,
its magnitude does not exceed the request and falls short of it by less
than one step), errors exactly when the truncated amount is below the
exchange minimum, and otherwise returns the truncated amount. -/
theorem C6_amount_quantization (requested minAmount : ℚ) (p : ℕ) :
    (∃ k : ℤ, quantDown requested p = (k : ℚ) / 10 ^ p) ∧
    |quantDown requested p| ≤ |requested| ∧
    |requested| - |quantDown requested p| < 1 / 10 ^ p ∧
    (quantDown requested p < minAmount →
      quantizeAmount requested p minAmount =
        .error "Trade amount is below minimum.") ∧
    (¬ quantDown requested p < minAmount →
      quantizeAmount requested p minAmount = .ok (quantDown requested p)) :=
  ⟨quantDown_isMultiple requested p, (quantDown_abs requested p).1,
   (quantDown_abs requested p).2,
   fun h => quantizeAmount_err requested minAmount p h,
   fun h => quantizeAmount_ok requested minAmount p h⟩

/-- Witness for C6 at requested 1.23456, precision 4, minimum 0.0001:
the step returns the truncation 1.2345. -/
theorem C6_amount_quantization_witness :
    quantizeAmount (123456/100000 : ℚ) 4 (1/10000) =
      .ok (quantDown (123456/100000) 4) :=
  (C6_amount_quantization (123456/100000) (1/10000) 4).2.2.2.2
    (by norm_num [quantDown, truncTowardZero])

/-- C8: amount quantization is idempotent: re-truncating a truncated
amount returns it unchanged, and a request accepted by the
quantization step is returned unchanged when quantized again. -/
theorem C8_quantize_idempotent (x minAmount : ℚ) (p : ℕ) :
    quantDown (quantDown x p) p = quantDown x p ∧
    (∀ a, quantizeAmount x p minAmount = .ok a →
      quantizeAmount a p minAmount = .ok a) := by
  refine ⟨quantDown_idem x p, fun a ha => ?_⟩
  by_cases h : quantDown x p < minAmount
  · rw [quantizeAmount_err x minAmount p h] at ha
    exact absurd ha (by simp)
  · rw [quantizeAmount_ok x minAmount p h] at ha
    have hax : a = quantDown x p := by
      cases ha
      rfl
    subst hax
    rw [quantizeAmount_ok _ _ _ (by rw [quantDown_idem]; exact h)]
    rw [quantDown_idem]

/-- Witness for C8: quantizing the already-quantized amount 1.2345 a
second time returns it unchanged. -/
theorem C8_quantize_idempotent_witness :
    quantizeAmount (quantDown (123456/100000 : ℚ) 4) 4 0 =
      .ok (quantDown (123456/100000 : ℚ) 4) :=
  (C8_quantize_idempotent (123456/100000) 0 4).2 (quantDown (123456/100000) 4)
    (quantizeAmount_ok _ _ _ (by norm_num [quantDown, truncTowardZero]))

/-- C3, counterexample: for entry 100, side Long (buy) and the positive
stop percentage 150.001, the nominal stop 100 × (1 − 1.50001) = −50.001
is rounded by `ROUND_DOWN` toward zero to −50, which is strictly
greater than the nominal value — so the computation does not round the
Long stop down, and the returned Long stop is not ≤ entry × (1 − stop_pct). -/
theorem C3_counterexample :
    (0 : ℚ) < 150001/1000 ∧
    (calcTradeParams 4 2 0 1 .buy (some 100) (150001/1000) 10).slPrice =
      some (-50) ∧
    ¬ ((-50 : ℚ) ≤ 100 * (1 - (150001/1000) / 100)) := by
  refine ⟨by norm_num, ?_, by norm_num⟩
  rw [calcTradeParams_buy 4 2 0 1 100 (150001/1000) 10
    (by norm_num [quantDown, truncTowardZero]) (by norm_num) (by norm_num)]
  have hc : (⌈(-(50001/10) : ℚ)⌉ : ℤ) = -5000 := by
    rw [Int.ceil_eq_iff]
    norm_num
  norm_num [quantDown, truncTowardZero, hc]

/-- C3, as amended: for every nonnegative entry price and stop/take
percentages in (0, 100], the Long stop is entry × (1 − stop_pct)
rounded down to the price step and the Long take is entry × (1 + take_pct)
rounded up; for Short the stop is rounded up and the take down; and the
Long stop is ≤ its nominal value while the Short stop is ≥ its nominal
value (take legs mirrored).  The restriction to percentages ≤ 100 is
forced: beyond 100 the nominal price is negative and `ROUND_DOWN`
(toward zero) rounds it up. -/
theorem C3_stop_take_rounding (entry slPct tpPct : ℚ) (p q : ℕ)
    (minA amountBase : ℚ)
    (hentry : 0 ≤ entry) (hsl : 0 < slPct) (hsl100 : slPct ≤ 100)
    (htp : 0 < tpPct) (htp100 : tpPct ≤ 100)
    (hamt : ¬ quantDown amountBase q < minA) :
    (calcTradeParams q p minA amountBase .buy (some entry) slPct tpPct).slPrice =
      some (quantDown (entry * (1 - slPct / 100)) p) ∧
    (calcTradeParams q p minA amountBase .buy (some entry) slPct tpPct).tpPrice =
      some (quantUp (entry * (1 + tpPct / 100)) p) ∧
    (calcTradeParams q p minA amountBase .sell (some entry) slPct tpPct).slPrice =
      some (quantUp (entry * (1 + slPct / 100)) p) ∧
    (calcTradeParams q p minA amountBase .sell (some entry) slPct tpPct).tpPrice =
      some (quantDown (entry * (1 - tpPct / 100)) p) ∧
    quantDown (entry * (1 - slPct / 100)) p ≤ entry * (1 - slPct / 100) ∧
    entry * (1 + tpPct / 100) ≤ quantUp (entry * (1 + tpPct / 100)) p ∧
    entry * (1 + slPct / 100) ≤ quantUp (entry * (1 + slPct / 100)) p ∧
    quantDown (entry * (1 - tpPct / 100)) p ≤ entry * (1 - tpPct / 100) := by
  have hslnn : 0 ≤ entry * (1 - slPct / 100) := by
    apply mul_nonneg hentry
    have : slPct / 100 ≤ 1 := by linarith [div_le_one_of_le₀ hsl100 (by norm_num : (0:ℚ) ≤ 100)]
    linarith
  have htpnn : 0 ≤ entry * (1 - tpPct / 100) := by
    apply mul_nonneg hentry
    have : tpPct / 100 ≤ 1 := by linarith [div_le_one_of_le₀ htp100 (by norm_num : (0:ℚ) ≤ 100)]
    linarith
  have hupnn : 0 ≤ entry * (1 + tpPct / 100) := by
    apply mul_nonneg hentry
    have : 0 < tpPct / 100 := by positivity
    linarith
  have hupnn' : 0 ≤ entry * (1 + slPct / 100) := by
    apply mul_nonneg hentry
    have : 0 < slPct / 100 := by positivity
    linarith
  rw [calcTradeParams_buy q p minA amountBase entry slPct tpPct hamt hsl htp,
    calcTradeParams_sell q p minA amountBase entry slPct tpPct hamt hsl htp]
  refine ⟨rfl, rfl, rfl, rfl, quantDown_le _ p hslnn, le_quantUp _ p hupnn,
    le_quantUp _ p hupnn', quantDown_le _ p htpnn⟩

/-- Witness for the amended C3, Scenario A of the spec: entry 100,
Long, stop 5%, take 10%, price precision 2 gives stop 95.00 and take
110.00. -/
theorem C3_stop_take_rounding_witness :
    (calcTradeParams 4 2 0 1 .buy (some 100) 5 10).slPrice = some 95 ∧
    (calcTradeParams 4 2 0 1 .buy (some 100) 5 10).tpPrice = some 110 := by
  have h := C3_stop_take_rounding 100 5 10 2 4 0 1 (by norm_num) (by norm_num)
    (by norm_num) (by norm_num) (by norm_num)
    (by norm_num [quantDown, truncTowardZero])
  refine ⟨?_, ?_⟩
  · rw [h.1]
    norm_num [quantDown, truncTowardZero]
  · rw [h.2.1]
    norm_num [quantUp, awayFromZero]

/-- C7: for a Long (buy) position with both legs set (and none of the
involved prices zero), `check_sl_tp` returns SL when the current price
is at or below the stop and TP when it is at or above the take (and not
at or below the stop); for a Short (sell) position the comparisons are
mirrored; when both conditions hold at once the stop is evaluated
first, so SL is returned. -/
theorem C7_check_trigger (sl tp c : ℚ) (hsl : sl ≠ 0) (htp : tp ≠ 0)
    (hc : c ≠ 0) :
    ((c ≤ sl → check_sl_tp (some ⟨.buy, some sl, some tp⟩) c = some .SL) ∧
     (¬ c ≤ sl → tp ≤ c → check_sl_tp (some ⟨.buy, some sl, some tp⟩) c = some .TP) ∧
     (c ≤ sl ∧ tp ≤ c → check_sl_tp (some ⟨.buy, some sl, some tp⟩) c = some .SL)) ∧
    ((sl ≤ c → check_sl_tp (some ⟨.sell, some sl, some tp⟩) c = some .SL) ∧
     (¬ sl ≤ c → c ≤ tp → check_sl_tp (some ⟨.sell, some sl, some tp⟩) c = some .TP) ∧
     (sl ≤ c ∧ c ≤ tp → check_sl_tp (some ⟨.sell, some sl, some tp⟩) c = some .SL)) := by
  refine ⟨⟨fun h => ?_, fun h1 h2 => ?_, fun h => ?_⟩,
    ⟨fun h => ?_, fun h1 h2 => ?_, fun h => ?_⟩⟩ <;>
    simp_all [check_sl_tp, decTruthy, slHit, tpHit]

/-- Witness for C7: a Long position with stop 95 and take 110 triggers
SL at price 94; a Short position with stop 0.525 and take 0.45 triggers
TP at price 0.40. -/
theorem C7_check_trigger_witness :
    check_sl_tp (some ⟨Side.buy, some 95, some 110⟩) 94 = some Trigger.SL ∧
    check_sl_tp (some ⟨Side.sell, some (21/40), some (9/20)⟩) (4/10) =
      some Trigger.TP := by
  constructor
  · exact (C7_check_trigger 95 110 94 (by norm_num) (by norm_num)
      (by norm_num)).1.1 (by norm_num)
  · exact (C7_check_trigger (21/40) (9/20) (4/10) (by norm_num) (by norm_num)
      (by norm_num)).2.2.1 (by norm_num) (by norm_num)

/-! ## Phase lemmas about the trading-loop tick -/

/-- `updCount` distributes over list append. -/
theorem updCount_append (a b : List Msg) :
    updCount (a ++ b) = updCount a + updCount b :=
  List.countP_append _ a b

/-- A list with no metrics posts contains no `updateMetrics` message. -/
theorem not_updateMetrics_mem (ms : List Msg) (h : updCount ms = 0)
    (m : Metrics) : Msg.updateMetrics m ∉ ms := by
  intro hmem
  have := List.countP_eq_zero.mp h _ hmem
  simp at this

/-- The command phase changes the tracked position only when a drained
manual-trade command succeeded, and then to the returned position. -/
theorem manualApply_position (s : LoopState) (d : TradeDir)
    (r : Except String (Option Position)) :
    (manualApply s d r).state.currentPosition = s.currentPosition ∨
    ∃ p, r = .ok (some p) ∧ (manualApply s d r).state.currentPosition = some p := by
  cases r with
  | error e => exact Or.inl rfl
  | ok v =>
    cases v with
    | none => exact Or.inl rfl
    | some p => exact Or.inr ⟨p, rfl, rfl⟩

theorem manualApply_calls (s : LoopState) (d : TradeDir)
    (r : Except String (Option Position)) :
    (manualApply s d r).calls = [ExtCall.executeManualTrade] := by
  cases r with
  | error e => rfl
  | ok v => cases v <;> rfl

theorem manualApply_updCount (s : LoopState) (d : TradeDir)
    (r : Except String (Option Position)) :
    updCount (manualApply s d r).msgs = 0 := by
  cases r with
  | error e => rfl
  | ok v => cases v <;> rfl

theorem refreshApply_position (s : LoopState) (env : FetchEnv) :
    (refreshApply s env).state.currentPosition = s.currentPosition := by
  unfold refreshApply
  rcases h : fetchOhlcv env with _ | df
  · rfl
  · cases df with
    | nil => rfl
    | cons c rest =>
      dsimp only
      rcases h2 : decTruthy (getCurrentPrice (some (c :: rest)) env.ticker)
        with _ | cp <;> rfl

theorem refreshApply_calls (s : LoopState) (env : FetchEnv) :
    (refreshApply s env).calls = [] := by
  unfold refreshApply
  rcases h : fetchOhlcv env with _ | df
  · rfl
  · cases df with
    | nil => rfl
    | cons c rest =>
      dsimp only
      rcases h2 : decTruthy (getCurrentPrice (some (c :: rest)) env.ticker)
        with _ | cp <;> rfl

theorem refreshApply_updCount (s : LoopState) (env : FetchEnv) :
    updCount (refreshApply s env).msgs = 0 := by
  unfold refreshApply
  rcases h : fetchOhlcv env with _ | df
  · rfl
  · cases df with
    | nil => rfl
    | cons c rest =>
      dsimp only
      rcases h2 : decTruthy (getCurrentPrice (some (c :: rest)) env.ticker)
        with _ | cp <;> rfl

theorem settingApply_position (s : LoopState) (n v : String) (k : Bool)
    (a : Option String) :
    (settingApply s n v k a).state.currentPosition = s.currentPosition := by
  unfold settingApply
  split
  · cases a with
    | some e => rfl
    | none =>
      dsimp only
      split <;> rfl
  · rfl

theorem settingApply_calls (s : LoopState) (n v : String) (k : Bool)
    (a : Option String) :
    (settingApply s n v k a).calls = [] := by
  unfold settingApply
  split
  · cases a with
    | some e => rfl
    | none => rfl
  · rfl

theorem settingApply_updCount (s : LoopState) (n v : String) (k : Bool)
    (a : Option String) :
    updCount (settingApply s n v k a).msgs = 0 := by
  unfold settingApply
  split
  · cases a with
    | some e => rfl
    | none => rfl
  · rfl

/-- The command phase changes the tracked position only when a drained
manual-trade command succeeded, and then to the returned position. -/
theorem processCommand_position (s : LoopState) (i : TickInput) :
    (processCommand s i).state.currentPosition = s.currentPosition ∨
    ((∃ d, i.command = some (.manualTrade d)) ∧
      ∃ p, i.manualTradeResult = .ok (some p) ∧
        (processCommand s i).state.currentPosition = some p) := by
  unfold processCommand
  cases hc : i.command with
  | none => exact Or.inl rfl
  | some c =>
    cases c with
    | manualTrade d =>
      rcases manualApply_position s d i.manualTradeResult with h | ⟨p, hp, hcp⟩
      · exact Or.inl h
      · exact Or.inr ⟨⟨d, rfl⟩, p, hp, hcp⟩
    | refreshData => exact Or.inl (refreshApply_position s i.refreshEnv)
    | updateSetting n v k a => exact Or.inl (settingApply_position s n v k a)

/-- The command phase invokes no `TradeExecutor` operation other than
`execute_manual_trade`. -/
theorem processCommand_calls (s : LoopState) (i : TickInput) :
    ∀ c ∈ (processCommand s i).calls, c = ExtCall.executeManualTrade := by
  intro c
  unfold processCommand
  cases hc : i.command with
  | none =>
    intro h
    simp at h
  | some cmd =>
    cases cmd with
    | manualTrade d =>
      rw [manualApply_calls]
      intro h
      simpa using h
    | refreshData =>
      rw [refreshApply_calls]
      intro h
      simp at h
    | updateSetting n v k a =>
      rw [settingApply_calls]
      intro h
      simp at h

/-- The command phase never posts a metrics snapshot. -/
theorem processCommand_updCount (s : LoopState) (i : TickInput) :
    updCount (processCommand s i).msgs = 0 := by
  unfold processCommand
  cases hc : i.command with
  | none => rfl
  | some cmd =>
    cases cmd with
    | manualTrade d => exact manualApply_updCount s d i.manualTradeResult
    | refreshData => exact refreshApply_updCount s i.refreshEnv
    | updateSetting n v k a => exact settingApply_updCount s n v k a

/-- The connectivity phase does not touch the tracked position. -/
theorem connectionPhase_position (s : LoopState) (i : TickInput) :
    (connectionPhase s i).state.currentPosition = s.currentPosition := by
  unfold connectionPhase
  split <;> rfl

/-- The connectivity phase makes no `TradeExecutor` call. -/
theorem connectionPhase_calls (s : LoopState) (i : TickInput) :
    (connectionPhase s i).calls = [] := by
  unfold connectionPhase
  split <;> rfl

/-- A connection-status message is never a metrics snapshot. -/
theorem connectionMsg_updCount (t : Except String (Option ℚ)) :
    updCount [connectionMsg t] = 0 := by
  unfold connectionMsg
  cases t with
  | error e => rfl
  | ok v =>
    dsimp only
    split <;> rfl

/-- The connectivity phase never posts a metrics snapshot. -/
theorem connectionPhase_updCount (s : LoopState) (i : TickInput) :
    updCount (connectionPhase s i).msgs = 0 := by
  unfold connectionPhase
  split
  · exact connectionMsg_updCount i.connectionTest
  · rfl

theorem fetchSuccess_position (s : LoopState) (df : List Candle)
    (ticker : Option ℚ) (now : ℤ) :
    (fetchSuccess s df ticker now).state.currentPosition = s.currentPosition := by
  unfold fetchSuccess
  rcases h : decTruthy (getCurrentPrice (some df) ticker) with _ | cp <;> rfl

theorem fetchSuccess_calls (s : LoopState) (df : List Candle)
    (ticker : Option ℚ) (now : ℤ) :
    (fetchSuccess s df ticker now).calls = [] := by
  unfold fetchSuccess
  rcases h : decTruthy (getCurrentPrice (some df) ticker) with _ | cp <;> rfl

theorem fetchSuccess_msgs (s : LoopState) (df : List Candle)
    (ticker : Option ℚ) (now : ℤ) :
    (fetchSuccess s df ticker now).msgs = [] := by
  unfold fetchSuccess
  rcases h : decTruthy (getCurrentPrice (some df) ticker) with _ | cp <;> rfl

/-- The fetch phase does not touch the tracked position. -/
theorem fetchPhase_position (cfg : Config) (s : LoopState) (i : TickInput) :
    (fetchPhase cfg s i).state.currentPosition = s.currentPosition := by
  unfold fetchPhase
  split
  · cases hr : i.fetchRaises with
    | some e => rfl
    | none =>
      rcases hf : fetchOhlcv i.fetchEnv with _ | df
      · rfl
      · cases df with
        | nil => rfl
        | cons c rest => exact fetchSuccess_position s (c :: rest) i.fetchEnv.ticker i.now
  · rfl

/-- The fetch phase makes no `TradeExecutor` call. -/
theorem fetchPhase_calls (cfg : Config) (s : LoopState) (i : TickInput) :
    (fetchPhase cfg s i).calls = [] := by
  unfold fetchPhase
  split
  · cases hr : i.fetchRaises with
    | some e => rfl
    | none =>
      rcases hf : fetchOhlcv i.fetchEnv with _ | df
      · rfl
      · cases df with
        | nil => rfl
        | cons c rest => exact fetchSuccess_calls s (c :: rest) i.fetchEnv.ticker i.now
  · rfl

/-- The fetch phase never posts a metrics snapshot. -/
theorem fetchPhase_updCount (cfg : Config) (s : LoopState) (i : TickInput) :
    updCount (fetchPhase cfg s i).msgs = 0 := by
  unfold fetchPhase
  split
  · cases hr : i.fetchRaises with
    | some e => rfl
    | none =>
      rcases hf : fetchOhlcv i.fetchEnv with _ | df
      · rfl
      · cases df with
        | nil => rfl
        | cons c rest =>
          rw [fetchSuccess_msgs]
          rfl
  · rfl

theorem throttleReport_position (s : LoopState) (e : String) (now : ℤ) :
    (throttleReport s e now).state.currentPosition = s.currentPosition := by
  unfold throttleReport
  split <;> rfl

theorem throttleReport_calls (s : LoopState) (e : String) (now : ℤ) :
    (throttleReport s e now).calls = [] := by
  unfold throttleReport
  split <;> rfl

theorem throttleReport_updCount (s : LoopState) (e : String) (now : ℤ) :
    updCount (throttleReport s e now).msgs = 0 := by
  unfold throttleReport
  split <;> rfl

theorem autoTradeApply_position (s1 : LoopState) (pred : String)
    (r : Except String (Option Position)) :
    (autoTradeApply s1 pred r).state.currentPosition = s1.currentPosition ∨
    ∃ p, r = .ok (some p) ∧
      (autoTradeApply s1 pred r).state.currentPosition = some p := by
  cases r with
  | error e => exact Or.inl rfl
  | ok v =>
    cases v with
    | none => exact Or.inl rfl
    | some p => exact Or.inr ⟨p, rfl, rfl⟩

theorem autoTradeApply_calls (s1 : LoopState) (pred : String)
    (r : Except String (Option Position)) :
    (autoTradeApply s1 pred r).calls = [ExtCall.executeTrade] := by
  cases r with
  | error e => rfl
  | ok v => cases v <;> rfl

theorem autoTradeApply_updCount (s1 : LoopState) (pred : String)
    (r : Except String (Option Position)) :
    updCount (autoTradeApply s1 pred r).msgs = 0 := by
  cases r with
  | error e => rfl
  | ok v => cases v <;> rfl

theorem finishPred_position (now : ℤ) (r : PhaseOut) :
    (finishPred now r).state.currentPosition = r.state.currentPosition := rfl

theorem finishPred_calls (now : ℤ) (r : PhaseOut) :
    (finishPred now r).calls = r.calls := rfl

theorem finishPred_updCount (now : ℤ) (r : PhaseOut) :
    updCount (finishPred now r).msgs = updCount r.msgs + 1 := by
  simp [finishPred, updCount, List.countP_append, List.countP_cons, List.countP_nil]

theorem finishPred_upd_mem (now : ℤ) (r : PhaseOut) (m : Metrics)
    (hm : Msg.updateMetrics m ∈ (finishPred now r).msgs)
    (h0 : updCount r.msgs = 0) :
    m = (finishPred now r).state.metrics := by
  unfold finishPred at hm ⊢
  dsimp only at hm ⊢
  rcases List.mem_append.mp hm with h | h
  · exact absurd h (not_updateMetrics_mem _ h0 m)
  · simpa using h

theorem predBody_position (i : TickInput) (s1 : LoopState) (pred : String) :
    (predBody i s1 pred).state.currentPosition = s1.currentPosition ∨
    (s1.currentPosition = none ∧
      ∃ p, i.autoTradeResult = .ok (some p) ∧
        (predBody i s1 pred).state.currentPosition = some p) := by
  unfold predBody
  by_cases h : (pred = "LONG" ∨ pred = "SHORT") ∧ s1.currentPosition = none
  · rw [if_pos h]
    rcases autoTradeApply_position s1 pred i.autoTradeResult with h1 | ⟨p, hp, hcp⟩
    · exact Or.inl h1
    · exact Or.inr ⟨h.2, p, hp, hcp⟩
  · rw [if_neg h]
    exact Or.inl rfl

theorem predBody_calls (i : TickInput) (s1 : LoopState) (pred : String) :
    ∀ c ∈ (predBody i s1 pred).calls, c = ExtCall.executeTrade := by
  intro c hc
  unfold predBody at hc
  rw [finishPred_calls] at hc
  split at hc
  · rw [autoTradeApply_calls] at hc
    simpa using hc
  · simp at hc

theorem predBody_updCount (i : TickInput) (s1 : LoopState) (pred : String) :
    updCount (predBody i s1 pred).msgs = 1 := by
  unfold predBody
  rw [finishPred_updCount]
  split
  · rw [autoTradeApply_updCount]
  · rfl

theorem predBody_upd_mem (i : TickInput) (s1 : LoopState) (pred : String)
    (m : Metrics) :
    Msg.updateMetrics m ∈ (predBody i s1 pred).msgs →
      m = (predBody i s1 pred).state.metrics := by
  unfold predBody
  intro hm
  refine finishPred_upd_mem _ _ _ hm ?_
  split
  · exact autoTradeApply_updCount _ _ _
  · rfl

/-- The prediction phase changes the tracked position only from `none`,
and only when the automated trade succeeded. -/
theorem predictionPhase_position (cfg : Config) (s : LoopState) (i : TickInput) :
    (predictionPhase cfg s i).state.currentPosition = s.currentPosition ∨
    (s.currentPosition = none ∧
      ∃ p, i.autoTradeResult = .ok (some p) ∧
        (predictionPhase cfg s i).state.currentPosition = some p) := by
  unfold predictionPhase
  split
  · cases hp : i.prediction with
    | raised e => exact Or.inl (throttleReport_position s e i.now)
    | calcOk rsi sig =>
      rcases predBody_position i
        { s with metrics := { s.metrics with rsi := rsi, prediction := some sig } } sig
        with h | ⟨hn, p, hp2, hcp⟩
      · exact Or.inl h
      · exact Or.inr ⟨hn, p, hp2, hcp⟩
    | calcFailed =>
      rcases predBody_position i
        { s with metrics := { s.metrics with prediction := some "Calc Error", rsi := none } }
        "HOLD" with h | ⟨hn, p, hp2, hcp⟩
      · exact Or.inl h
      · exact Or.inr ⟨hn, p, hp2, hcp⟩
  · exact Or.inl rfl

/-- The prediction phase invokes no `TradeExecutor` operation other
than `execute_trade`. -/
theorem predictionPhase_calls (cfg : Config) (s : LoopState) (i : TickInput) :
    ∀ c ∈ (predictionPhase cfg s i).calls, c = ExtCall.executeTrade := by
  intro c
  unfold predictionPhase
  split
  · cases hp : i.prediction with
    | raised e =>
      rw [throttleReport_calls]
      intro h
      simp at h
    | calcOk rsi sig => exact predBody_calls i _ sig c
    | calcFailed => exact predBody_calls i _ "HOLD" c
  · intro h
    simp at h

/-- The prediction phase posts exactly one metrics snapshot when its
gate holds and the body does not raise, and none otherwise. -/
theorem predictionPhase_updCount (cfg : Config) (s : LoopState) (i : TickInput) :
    updCount (predictionPhase cfg s i).msgs =
      (if predGate cfg s i && notRaised i then 1 else 0) := by
  unfold predictionPhase
  by_cases hg : predGate cfg s i
  · rw [if_pos hg]
    cases hp : i.prediction with
    | raised e =>
      have h2 : (predGate cfg s i && notRaised i) = false := by
        simp [notRaised, hp]
      simp [h2, throttleReport_updCount]
    | calcOk rsi sig =>
      have h2 : (predGate cfg s i && notRaised i) = true := by
        simp [notRaised, hp, hg]
      simp [h2, predBody_updCount]
    | calcFailed =>
      have h2 : (predGate cfg s i && notRaised i) = true := by
        simp [notRaised, hp, hg]
      simp [h2, predBody_updCount]
  · rw [if_neg hg]
    have h2 : (predGate cfg s i && notRaised i) = false := by
      simp [Bool.not_eq_true] at hg
      simp [hg]
    simp [h2, updCount]

/-- A metrics snapshot posted by the prediction phase is the metrics
record of the state the phase ends in. -/
theorem predictionPhase_upd_mem (cfg : Config) (s : LoopState) (i : TickInput)
    (m : Metrics) :
    Msg.updateMetrics m ∈ (predictionPhase cfg s i).msgs →
      m = (predictionPhase cfg s i).state.metrics := by
  unfold predictionPhase
  split
  · cases hp : i.prediction with
    | raised e =>
      intro hm
      exact absurd hm (not_updateMetrics_mem _ (throttleReport_updCount s e i.now) m)
    | calcOk rsi sig => exact predBody_upd_mem i _ sig m
    | calcFailed => exact predBody_upd_mem i _ "HOLD" m
  · intro hm
    simp at hm

/-- Decomposition of the calls of a tick into its four phases. -/
theorem tick_calls (cfg : Config) (s : LoopState) (i : TickInput) :
    (tick cfg s i).calls =
      (processCommand s i).calls ++
        (connectionPhase (processCommand s i).state i).calls ++
        (fetchPhase cfg (connectionPhase (processCommand s i).state i).state i).calls ++
        (predictionPhase cfg
          (fetchPhase cfg (connectionPhase (processCommand s i).state i).state i).state
          i).calls := rfl

/-- Decomposition of the messages of a tick into its four phases. -/
theorem tick_msgs (cfg : Config) (s : LoopState) (i : TickInput) :
    (tick cfg s i).msgs =
      (processCommand s i).msgs ++
        (connectionPhase (processCommand s i).state i).msgs ++
        (fetchPhase cfg (connectionPhase (processCommand s i).state i).state i).msgs ++
        (predictionPhase cfg
          (fetchPhase cfg (connectionPhase (processCommand s i).state i).state i).state
          i).msgs := rfl

/-- The final state of a tick is the state after the prediction phase. -/
theorem tick_state (cfg : Config) (s : LoopState) (i : TickInput) :
    (tick cfg s i).state =
      (predictionPhase cfg
        (fetchPhase cfg (connectionPhase (processCommand s i).state i).state i).state
        i).state := rfl

/-- Every `TradeExecutor` call a tick makes is a trade placement. -/
theorem tick_calls_mem (cfg : Config) (s : LoopState) (i : TickInput) :
    ∀ c ∈ (tick cfg s i).calls,
      c = ExtCall.executeManualTrade ∨ c = ExtCall.executeTrade := by
  intro c hc
  rw [tick_calls] at hc
  rcases List.mem_append.mp hc with h123 | h4
  · rcases List.mem_append.mp h123 with h12 | h3
    · rcases List.mem_append.mp h12 with h1 | h2
      · exact Or.inl (processCommand_calls s i c h1)
      · rw [connectionPhase_calls] at h2
        simp at h2
    · rw [fetchPhase_calls] at h3
      simp at h3
  · exact Or.inr (predictionPhase_calls cfg _ i c h4)

/-- An open position survives every tick: no phase of the loop ever
clears `current_position`. -/
theorem tick_keeps_open (cfg : Config) (s : LoopState) (i : TickInput)
    (h : s.currentPosition.isSome) :
    (tick cfg s i).state.currentPosition.isSome := by
  have hs1 : (processCommand s i).state.currentPosition.isSome := by
    rcases processCommand_position s i with h1 | ⟨_, p, _, hcp⟩
    · rw [h1]
      exact h
    · rw [hcp]
      rfl
  have hs2 :
      (connectionPhase (processCommand s i).state i).state.currentPosition.isSome := by
    rw [connectionPhase_position]
    exact hs1
  have hs3 :
      (fetchPhase cfg (connectionPhase (processCommand s i).state i).state
        i).state.currentPosition.isSome := by
    rw [fetchPhase_position]
    exact hs2
  rw [tick_state]
  rcases predictionPhase_position cfg
      (fetchPhase cfg (connectionPhase (processCommand s i).state i).state i).state i
      with h4 | ⟨hn, p, hp2, hcp⟩
  · rw [h4]
    exact hs3
  · rw [hcp]
    rfl

/-! ## Claim theorems for the trading loop -/

/-- C2: from Flat, only a successful trade (manual or automated) moves
the loop to Open; from Open, no tick of the loop moves it to Flat (so
only a successful close could, vacuously); and the loop tracks at most
one live position (a single `current_position` variable). -/
theorem C2_state_machine (cfg : Config) (s : LoopState) (i : TickInput) :
    ((s.currentPosition = none →
        (tick cfg s i).state.currentPosition ≠ none → tradeSucceeded i) ∧
      (s.currentPosition.isSome → (tick cfg s i).state.currentPosition.isSome)) ∧
    (tick cfg s i).state.positions.length ≤ 1 := by
  refine ⟨⟨?_, tick_keeps_open cfg s i⟩, ?_⟩
  · intro h0 hne
    rcases processCommand_position s i with h1 | ⟨hex, p, hp, _⟩
    · have h1' : (processCommand s i).state.currentPosition = none := h1.trans h0
      have h2 :
          (connectionPhase (processCommand s i).state i).state.currentPosition = none :=
        (connectionPhase_position _ _).trans h1'
      have h3 :
          (fetchPhase cfg (connectionPhase (processCommand s i).state i).state
            i).state.currentPosition = none :=
        (fetchPhase_position _ _ _).trans h2
      rcases predictionPhase_position cfg
          (fetchPhase cfg (connectionPhase (processCommand s i).state i).state i).state i
          with h4 | ⟨_, p, hp2, _⟩
      · rw [tick_state] at hne
        exact absurd (h4.trans h3) hne
      · exact Or.inr ⟨p, hp2⟩
    · exact Or.inl ⟨hex, p, hp⟩
  · rcases htp : (tick cfg s i).state.currentPosition with _ | p <;>
      simp [LoopState.positions, htp]

/-- Witness for C2: from the Flat state, a tick carrying a successful
manual LONG trade ends Open, and the theorem derives that a trade
succeeded on that tick. -/
theorem C2_state_machine_witness : tradeSucceeded manualInput :=
  (C2_state_machine cfg0 sFlat manualInput).1.1 rfl
    (fun h => Option.noConfusion h)

/-- C1, counterexample: in the Scenario D state (Open Long position
with stop 0.45, current price 0.44 — a configuration in which the
executor function `check_sl_tp` itself reports a stop hit), a tick of
the loop makes no `TradeExecutor` call at all: the SL/TP check is never
invoked, no close happens, and the state remains Open.  This refutes
the claim that every Open tick with a known price invokes the SL/TP
check. -/
theorem C1_counterexample :
    sOpenD.currentPosition.isSome ∧
    sOpenD.metrics.currentPrice = some (44/100) ∧
    check_sl_tp
      (some { side := Side.buy, slPrice := posD.slPrice, tpPrice := posD.tpPrice })
      (44/100) = some Trigger.SL ∧
    (tick cfg0 sOpenD idleInput).calls = [] ∧
    (tick cfg0 sOpenD idleInput).state.currentPosition = some posD := by
  refine ⟨rfl, rfl, ?_, rfl, rfl⟩
  norm_num [check_sl_tp, decTruthy, slHit, tpHit, posD]
  intro h
  exact Option.noConfusion h

/-- C1, as amended: on every tick taken from an Open state, the loop
never invokes the SL/TP check (`check_sl_tp`) nor the close
(`close_position`) — neither function is called anywhere in
`run_trading_logic` — and the position state remains Open.  SL/TP
enforcement is instead delegated to the exchange via the stop and take
prices attached to the order at placement. -/
theorem C1_no_sl_tp_phase (cfg : Config) (s : LoopState) (i : TickInput)
    (h : s.currentPosition.isSome) :
    ExtCall.checkSlTpCall ∉ (tick cfg s i).calls ∧
    ExtCall.closePositionCall ∉ (tick cfg s i).calls ∧
    (tick cfg s i).state.currentPosition.isSome := by
  refine ⟨?_, ?_, tick_keeps_open cfg s i h⟩
  · intro hmem
    rcases tick_calls_mem cfg s i _ hmem with h' | h' <;> exact ExtCall.noConfusion h'
  · intro hmem
    rcases tick_calls_mem cfg s i _ hmem with h' | h' <;> exact ExtCall.noConfusion h'

/-- Witness for the amended C1 on a busy tick (manual trade command,
fetchable data, computed signal) from an Open state. -/
theorem C1_no_sl_tp_phase_witness :
    ExtCall.checkSlTpCall ∉ (tick cfg0 sOpenD busyInput).calls ∧
    ExtCall.closePositionCall ∉ (tick cfg0 sOpenD busyInput).calls ∧
    (tick cfg0 sOpenD busyInput).state.currentPosition.isSome :=
  C1_no_sl_tp_phase cfg0 sOpenD busyInput rfl

/-- C4, counterexample: a tick at time 100 in which the connectivity
check and the data fetch both run (the fetch succeeds and caches a
frame) but the prediction interval has not elapsed publishes no metrics
snapshot at all — refuting the claim that exactly one snapshot is
published unconditionally on every tick. -/
theorem C4_counterexample :
    (tick cfg0 sC4 iC4).state.ohlcv.isSome ∧
    updCount (tick cfg0 sC4 iC4).msgs = 0 := by
  exact ⟨rfl, rfl⟩

/-- C4, as amended: a tick publishes at most one metrics snapshot, and
publishes exactly one precisely when the prediction phase runs — its
gate (interval elapsed, cached snapshot, known price) holds after the
earlier phases and its body does not raise.  On all other ticks nothing
is published. -/
theorem C4_publish_iff (cfg : Config) (s : LoopState) (i : TickInput) :
    updCount (tick cfg s i).msgs = (if predictionRan cfg s i then 1 else 0) := by
  rw [tick_msgs, updCount_append, updCount_append, updCount_append,
    processCommand_updCount, connectionPhase_updCount, fetchPhase_updCount,
    predictionPhase_updCount]
  simp [predictionRan, midState]

/-- C5, counterexample: with the fetch interval elapsed and all three
fetch attempts failing (`DataHandler.fetch_ohlcv` returns nothing), the
cached snapshot and derived price are kept — but the loop posts no
failure message at all (the failure is only logged) and advances
`last_data_fetch` to `now`, so the next attempt comes only after the
full configured interval; there is no extra half-interval wait.  This
refutes the reported-exactly-once and half-interval parts of the
claim. -/
theorem C5_counterexample :
    fetchOhlcv iC5.fetchEnv = none ∧
    (fetchPhase cfg0 sC5 iC5).state.ohlcv = sC5.ohlcv ∧
    (fetchPhase cfg0 sC5 iC5).state.metrics.currentPrice = sC5.metrics.currentPrice ∧
    (fetchPhase cfg0 sC5 iC5).msgs = [] ∧
    (fetchPhase cfg0 sC5 iC5).state.lastDataFetch = 100 ∧
    (fetchPhase cfg0 sC5 iC5).extraSleep = 0 := by
  exact ⟨rfl, rfl, rfl, rfl, rfl, rfl⟩

/-- C5, as amended: when the fetch is due and `DataHandler.fetch_ohlcv`
returns no data (its three internal attempts all failed), the cached
snapshot and derived price remain unchanged, no message is posted, the
fetch clock advances to `now` (full-interval retry), and no extra sleep
happens.  Only when the fetch call itself raises does the loop post one
`ConnectionStatusMessage`, keep the fetch clock (and all other state)
unchanged, and sleep half the configured interval before the next
tick. -/
theorem C5_fetch_failure (cfg : Config) (s : LoopState) (i : TickInput)
    (hdue : s.lastDataFetch + cfg.dataFetchInterval ≤ i.now) :
    (i.fetchRaises = none → fetchOhlcv i.fetchEnv = none →
      (fetchPhase cfg s i).state.ohlcv = s.ohlcv ∧
      (fetchPhase cfg s i).state.metrics.currentPrice = s.metrics.currentPrice ∧
      (fetchPhase cfg s i).msgs = [] ∧
      (fetchPhase cfg s i).state.lastDataFetch = i.now ∧
      (fetchPhase cfg s i).extraSleep = 0) ∧
    (∀ e, i.fetchRaises = some e →
      (fetchPhase cfg s i).state = s ∧
      (fetchPhase cfg s i).msgs =
        [.connectionStatus "error" ("Data fetch error: " ++ e)] ∧
      (fetchPhase cfg s i).extraSleep = (cfg.dataFetchInterval : ℚ) / 2) := by
  constructor
  · intro hr hf
    unfold fetchPhase
    rw [if_pos hdue, hr, hf]
    exact ⟨rfl, rfl, rfl, rfl, rfl⟩
  · intro e hr
    unfold fetchPhase
    rw [if_pos hdue, hr]
    exact ⟨rfl, rfl, rfl⟩

/-- Witness for the amended C5, raising branch: a fetch call raising
at time 100 leaves the state untouched, posts one error status and
sleeps half the 60-second interval. -/
theorem C5_fetch_failure_witness :
    (fetchPhase cfg0 sC5 iC5raise).state = sC5 ∧
    (fetchPhase cfg0 sC5 iC5raise).msgs =
      [Msg.connectionStatus "error" ("Data fetch error: " ++ "boom")] ∧
    (fetchPhase cfg0 sC5 iC5raise).extraSleep = (cfg0.dataFetchInterval : ℚ) / 2 :=
  (C5_fetch_failure cfg0 sC5 iC5raise (by decide)).2 "boom" rfl

/-- C9, counterexample: the loop reuses one `Metrics` record.  The
first tick publishes the snapshot `mPub` — and the published object is
the loop state record itself (`post_message_callback` receives a
reference to the `Metrics` object created once at `src/main.py:631`).
On the next tick the loop overwrites the record (a fetch delivers a new
price), so the fields of the already-published snapshot are mutated
after it was handed to the Status Publisher — refuting immutability and
freshness. -/
theorem C9_counterexample :
    Msg.updateMetrics mPub ∈ (tick cfg0 s9 i9a).msgs ∧
    (tick cfg0 s9 i9a).state.metrics = mPub ∧
    (tick cfg0 (tick cfg0 s9 i9a).state i9b).state.metrics ≠ mPub := by
  refine ⟨List.Mem.head _, rfl, ?_⟩
  intro h
  have h2 : (none : Option ℚ) = some 50 := congrArg Metrics.rsi h
  exact Option.noConfusion h2

/-- C9, as amended: every metrics snapshot a tick publishes is exactly
the loop state metrics record at the end of that tick — the published
snapshot is the loop live record, not an independent copy, and later
ticks may mutate it after the handoff. -/
theorem C9_published_is_live (cfg : Config) (s : LoopState) (i : TickInput)
    (m : Metrics) (hm : Msg.updateMetrics m ∈ (tick cfg s i).msgs) :
    m = (tick cfg s i).state.metrics := by
  rw [tick_msgs] at hm
  rcases List.mem_append.mp hm with h123 | h4
  · rcases List.mem_append.mp h123 with h12 | h3
    · rcases List.mem_append.mp h12 with h1 | h2
      · exact absurd h1 (not_updateMetrics_mem _ (processCommand_updCount s i) m)
      · exact absurd h2 (not_updateMetrics_mem _ (connectionPhase_updCount _ i) m)
    · exact absurd h3 (not_updateMetrics_mem _ (fetchPhase_updCount cfg _ i) m)
  · rw [tick_state]
    exact predictionPhase_upd_mem cfg
      (fetchPhase cfg (connectionPhase (processCommand s i).state i).state i).state
      i m h4

/-- Witness for the amended C9: the snapshot published by the concrete
first C9 tick is that tick final metrics record. -/
theorem C9_published_is_live_witness :
    mPub = (tick cfg0 s9 i9a).state.metrics :=
  C9_published_is_live cfg0 s9 i9a mPub (List.Mem.head _)

/-- C10: `check_sl_tp` returns no trigger on an absent/empty position
record or a zero current price, and a stored stop or take price of zero
behaves exactly as if that leg were unset, whatever the price
comparison for the leg would say. -/
theorem C10_zero_guards (c : ℚ) (p : PositionInfo) :
    check_sl_tp none c = none ∧
    check_sl_tp (some p) 0 = none ∧
    check_sl_tp (some { p with slPrice := some 0 }) c =
      check_sl_tp (some { p with slPrice := none }) c ∧
    check_sl_tp (some { p with tpPrice := some 0 }) c =
      check_sl_tp (some { p with tpPrice := none }) c := by
  refine ⟨rfl, by simp [check_sl_tp], ?_, ?_⟩ <;>
    simp [check_sl_tp, decTruthy]

end LeverageTrader
